import Mathlib

/-!
Verification of the integration and normalization engine of the
`is477project` soccer data pipeline.

The definitions below are a shallow embedding of the Python source:

* `src/scripts/02_clean.py` — `standardize_team_name`, `clean_dataset2`
  (date parsing with century fix, season derivation, card fill,
  result reconciliation);
* `src/scripts/03_integrate.py` — `generate_match_id` (MD5 digest),
  `create_integrated_dataset`, `validate_integration`.

Pandas tables are modelled as `List` of per-row structures; nullable
cells (`NaN`/`NaT`) are modelled with `Option`; numpy comparison
semantics (`NaN > x = False`, `NaN != y = True`) are kept explicitly at
each use site.  Python `int` values are modelled as `Int`, float
division results as `ℚ`.
-/

/-! ## Character-level helpers (`str.lower`, `str.strip`, `re.sub`) -/

theorem char_toNat_ofNat (n : Nat) (h : n.isValidChar) : (Char.ofNat n).toNat = n := by
  simp only [Char.ofNat, h, dite_true, Char.ofNatAux, Char.toNat, UInt32.toNat,
    BitVec.toNat_ofNatLt]

/-- Model of Python `str.lower` on a single character (ASCII fragment:
uppercase letters `A`–`Z`, code points 65–90, are shifted by 32;
everything else is left unchanged). -/
def lowerChar (c : Char) : Char :=
  if 65 ≤ c.toNat ∧ c.toNat ≤ 90 then Char.ofNat (c.toNat + 32) else c

theorem lowerChar_idem (c : Char) : lowerChar (lowerChar c) = lowerChar c := by
  unfold lowerChar
  by_cases h : 65 ≤ c.toNat ∧ c.toNat ≤ 90
  · have hv : (c.toNat + 32).isValidChar := Or.inl (by omega)
    have ht : (Char.ofNat (c.toNat + 32)).toNat = c.toNat + 32 := char_toNat_ofNat _ hv
    rw [if_pos h, ht, if_neg (by omega)]
  · rw [if_neg h, if_neg h]

/-- Whitespace class shared by Python `str.strip` and the regex `\s`
(ASCII fragment). -/
def isWs (c : Char) : Bool :=
  c = ' ' || c = '\t' || c = '\n' || c = '\r' || c = '\x0b' || c = '\x0c'

/-- Regex `\w` (ASCII fragment): letters, digits and underscore. -/
def isWordChar (c : Char) : Bool :=
  c.isAlphanum || c = '_'

/-- Characters kept by `re.sub(r'[^\w\s-]', '', name)`: word characters,
whitespace and hyphens survive, everything else is deleted. -/
def isKeptChar (c : Char) : Bool :=
  isWordChar c || isWs c || c = '-'

/-- Python `str.strip`: drop leading and trailing whitespace. -/
def stripL (s : List Char) : List Char :=
  ((s.dropWhile isWs).reverse.dropWhile isWs).reverse

/-- Worker for `re.sub(r'\s+', ' ', name)`: each maximal whitespace run
is replaced by a single `' '`.  The flag records whether the previous
character was whitespace (i.e. whether we are inside a run). -/
def collapseWsAux : Bool → List Char → List Char
  | _, [] => []
  | prevWs, c :: cs =>
    if isWs c then
      if prevWs then collapseWsAux true cs else ' ' :: collapseWsAux true cs
    else c :: collapseWsAux false cs

/-- Model of `re.sub(r'\s+', ' ', name)`. -/
def collapseWs (s : List Char) : List Char :=
  collapseWsAux false s

/-- The normalization part of `standardize_team_name`
(02_clean.py lines 42–49): lowercase, strip, delete characters outside
`[\w\s-]`, collapse whitespace runs — in that order. -/
def normalizeName (s : List Char) : List Char :=
  collapseWs (List.filter isKeptChar (stripL (s.map lowerChar)))

/-- The fixed alias table of `standardize_team_name`
(02_clean.py lines 52–79). -/
def teamAliases : List (List Char × List Char) := [
  ("man united".data, "manchester united".data),
  ("man city".data, "manchester city".data),
  ("man utd".data, "manchester united".data),
  ("psg".data, "paris saint germain".data),
  ("paris sg".data, "paris saint germain".data),
  ("newcastle".data, "newcastle united".data),
  ("west ham".data, "west ham united".data),
  ("wolves".data, "wolverhampton wanderers".data),
  ("tottenham".data, "tottenham hotspur".data),
  ("spurs".data, "tottenham hotspur".data),
  ("brighton".data, "brighton and hove albion".data),
  ("nottm forest".data, "nottingham forest".data),
  ("nott\x27m forest".data, "nottingham forest".data),
  ("notts forest".data, "nottingham forest".data),
  ("bayern".data, "bayern munich".data),
  ("bayern munchen".data, "bayern munich".data),
  ("fc bayern".data, "bayern munich".data),
  ("ein frankfurt".data, "eintracht frankfurt".data),
  ("fc barcelona".data, "barcelona".data),
  ("barca".data, "barcelona".data),
  ("real".data, "real madrid".data),
  ("atletico".data, "atletico madrid".data),
  ("inter".data, "inter milan".data),
  ("ac milan".data, "milan".data),
  ("munich 1860".data, "1860 munich".data),
  ("werder bremen".data, "werder".data)]

/-- `if name in aliases: name = aliases[name]` — dictionary lookup. -/
def aliasLookup (n : List Char) : Option (List Char) :=
  (teamAliases.find? (fun p => p.1 == n)).map (fun p => p.2)

/-- `standardize_team_name` (02_clean.py lines 24–85).  `pd.isna` input
passes through (`none`); otherwise the name is normalized and then
looked up in the alias table. -/
def standardize_team_name (name : Option String) : Option String :=
  match name with
  | none => none
  | some s =>
    let n := normalizeName s.data
    match aliasLookup n with
    | some v => some (String.mk v)
    | none => some (String.mk n)

/-! ## Facts about the standardizer -/

theorem list_map_id_of_mem {α : Type} {f : α → α} :
    ∀ l : List α, (∀ c ∈ l, f c = c) → l.map f = l
  | [], _ => rfl
  | c :: cs, h => by
    simp only [List.map_cons, h c (List.mem_cons_self c cs),
      list_map_id_of_mem cs (fun a ha => h a (List.mem_cons_of_mem c ha)), List.cons.injEq,
      and_self]

theorem mem_collapseWsAux {c : Char} :
    ∀ (s : List Char) (b : Bool), c ∈ collapseWsAux b s → c = ' ' ∨ c ∈ s
  | [], b, h => by simp [collapseWsAux] at h
  | d :: ds, b, h => by
    unfold collapseWsAux at h
    by_cases hd : isWs d
    · rw [if_pos hd] at h
      rcases b with _ | _
      · simp only [if_neg Bool.false_ne_true, List.mem_cons] at h
        rcases h with h | h
        · exact Or.inl h
        · rcases mem_collapseWsAux ds true h with h' | h'
          · exact Or.inl h'
          · exact Or.inr (List.mem_cons_of_mem d h')
      · rw [if_pos rfl] at h
        rcases mem_collapseWsAux ds true h with h' | h'
        · exact Or.inl h'
        · exact Or.inr (List.mem_cons_of_mem d h')
    · rw [if_neg hd] at h
      rcases List.mem_cons.1 h with h' | h'
      · exact Or.inr (h' ▸ List.mem_cons_self d ds)
      · rcases mem_collapseWsAux ds false h' with h'' | h''
        · exact Or.inl h''
        · exact Or.inr (List.mem_cons_of_mem d h'')

theorem collapseWsAux_cons (b : Bool) (c : Char) (cs : List Char) :
    collapseWsAux b (c :: cs) =
      if isWs c then
        if b then collapseWsAux true cs else ' ' :: collapseWsAux true cs
      else c :: collapseWsAux false cs := rfl

theorem collapseWsAux_idem :
    ∀ (s : List Char) (b : Bool), collapseWsAux b (collapseWsAux b s) = collapseWsAux b s
  | [], _ => rfl
  | d :: ds, b => by
    rw [collapseWsAux_cons]
    by_cases hd : isWs d
    · rw [if_pos hd]
      rcases b with _ | _
      · rw [if_neg Bool.false_ne_true, collapseWsAux_cons,
          if_pos (by decide : isWs ' ' = true), if_neg Bool.false_ne_true,
          collapseWsAux_idem ds true]
      · rw [if_pos rfl]
        exact collapseWsAux_idem ds true
    · rw [if_neg hd, collapseWsAux_cons, if_neg hd, collapseWsAux_idem ds false]

theorem mem_stripL {c : Char} {s : List Char} (h : c ∈ stripL s) : c ∈ s := by
  unfold stripL at h
  rw [List.mem_reverse] at h
  have h1 := (List.dropWhile_sublist isWs).subset h
  rw [List.mem_reverse] at h1
  exact (List.dropWhile_sublist isWs).subset h1

theorem mem_normalizeName {c : Char} {s : List Char} (h : c ∈ normalizeName s) :
    lowerChar c = c ∧ isKeptChar c = true := by
  unfold normalizeName collapseWs at h
  rcases mem_collapseWsAux _ false h with h' | h'
  · subst h'
    exact ⟨by decide, by decide⟩
  · rcases List.mem_filter.1 h' with ⟨h1, h2⟩
    refine ⟨?_, h2⟩
    rcases List.mem_map.1 (mem_stripL h1) with ⟨c0, _, hc0⟩
    rw [← hc0]
    exact lowerChar_idem c0

theorem normalizeName_of_fixed {n : List Char}
    (hn : ∀ c ∈ n, lowerChar c = c ∧ isKeptChar c = true)
    (hstr : stripL n = n) (hcol : collapseWs n = n) :
    normalizeName n = n := by
  unfold normalizeName
  rw [list_map_id_of_mem n (fun c hc => (hn c hc).1), hstr,
    List.filter_eq_self.2 (fun c hc => (hn c hc).2), hcol]

theorem normalizeName_idem {s : List Char}
    (h : stripL (normalizeName s) = normalizeName s) :
    normalizeName (normalizeName s) = normalizeName s := by
  refine normalizeName_of_fixed (fun c hc => mem_normalizeName hc) h ?_
  show collapseWs (collapseWs (List.filter isKeptChar (stripL (s.map lowerChar)))) = _
  exact collapseWsAux_idem _ false

theorem aliasValuesFixed :
    ∀ p ∈ teamAliases, standardize_team_name (some (String.mk p.2)) = some (String.mk p.2) := by
  decide

theorem standardize_some (s : String) :
    standardize_team_name (some s) =
      match aliasLookup (normalizeName s.data) with
      | some v => some (String.mk v)
      | none => some (String.mk (normalizeName s.data)) := rfl

/-- C9 (amended): the Name Standardizer is idempotent on null and on every
input whose standardized form carries no leading or trailing whitespace
(in particular on every input without special characters, where
special-character removal cannot expose boundary whitespace):
for such `x`, `standardize(standardize(x)) = standardize(x)`. -/
theorem c9_standardize_idempotence_amended (x : Option String)
    (h : Option.all (fun y => stripL y.data == y.data) (standardize_team_name x) = true) :
    standardize_team_name (standardize_team_name x) = standardize_team_name x := by
  cases x with
  | none => rfl
  | some s =>
    cases halias : aliasLookup (normalizeName s.data) with
    | some v =>
      have hstd : standardize_team_name (some s) = some (String.mk v) := by
        rw [standardize_some, halias]
      rw [hstd]
      obtain ⟨p, hfind, hv⟩ :
          ∃ p, teamAliases.find? (fun p => p.1 == normalizeName s.data) = some p ∧ p.2 = v := by
        unfold aliasLookup at halias
        cases hf : teamAliases.find? (fun p => p.1 == normalizeName s.data) with
        | none => rw [hf] at halias; exact Option.noConfusion halias
        | some p =>
          rw [hf] at halias
          exact ⟨p, rfl, Option.some.inj halias⟩
      have hfix := aliasValuesFixed p (List.mem_of_find?_eq_some hfind)
      rw [hv] at hfix
      exact hfix
    | none =>
      have hstd : standardize_team_name (some s) = some (String.mk (normalizeName s.data)) := by
        rw [standardize_some, halias]
      rw [hstd] at h ⊢
      have hstr : stripL (normalizeName s.data) = normalizeName s.data := by
        have : (stripL (normalizeName s.data) == normalizeName s.data) = true := by
          simpa [Option.all] using h
        exact eq_of_beq this
      rw [standardize_some]
      have hdata : (String.mk (normalizeName s.data)).data = normalizeName s.data := rfl
      rw [hdata, normalizeName_idem hstr, halias]

/-- C9 witness: a concrete instance of the amended idempotence theorem at
the input `"Man United"`. -/
theorem c9_standardize_idempotence_amended_witness :
    standardize_team_name (standardize_team_name (some "Man United")) =
      standardize_team_name (some "Man United") :=
  c9_standardize_idempotence_amended (some "Man United") (by decide)

/-- C9 counterexample: the Name Standardizer is not idempotent as claimed.
For the input `"a !"` the first application yields `"a "` (removing `!`
exposes a trailing space that the whitespace-collapse step keeps), and the
second application strips it, yielding `"a"`. -/
theorem c9_standardize_idempotence_cex :
    standardize_team_name (standardize_team_name (some "a !")) ≠
      standardize_team_name (some "a !") := by decide

/-! ## Temporal normalization (02_clean.py lines 109–117, 141–143) -/

/-- A calendar date as produced by `pd.to_datetime`. -/
structure MDate where
  year : Nat
  month : Nat
  day : Nat
deriving DecidableEq, Repr

/-- Gregorian leap-year rule used by the datetime library. -/
def isLeapYear (y : Nat) : Bool :=
  (y % 4 == 0 && y % 100 != 0) || y % 400 == 0

def daysInMonth (y m : Nat) : Nat :=
  if m = 2 then (if isLeapYear y then 29 else 28)
  else if m = 4 ∨ m = 6 ∨ m = 9 ∨ m = 11 then 30
  else 31

/-- The `%y` two-digit-year pivot of `strptime`: values 0–68 parse into
2000–2068, values 69–99 into 1969–1999. -/
def pivotYear (yy : Nat) : Nat :=
  if yy ≤ 68 then 2000 + yy else 1900 + yy

/-- `pd.to_datetime(df['Date'], format='%d/%m/%y', errors='coerce')` on one
date cell, the cell being modelled as already tokenized into
(day, month, two-digit year).  Calendar-invalid input degrades to `none`
(`NaT`), it is never fatal. -/
def parseDayMonthYear (d m yy : Nat) : Option MDate :=
  if yy ≤ 99 ∧ 1 ≤ m ∧ m ≤ 12 ∧ 1 ≤ d ∧ d ≤ daysInMonth (pivotYear yy) m then
    some ⟨pivotYear yy, m, d⟩
  else none

/-- The century fix (02_clean.py lines 113–117): a parsed date whose year
exceeds the current year is shifted back by `pd.DateOffset(years=100)`
(month kept, day clamped to the target month's length as `DateOffset`
does). -/
def fixCentury (currentYear : Nat) (dt : MDate) : MDate :=
  if dt.year > currentYear then
    ⟨dt.year - 100, dt.month, min dt.day (daysInMonth (dt.year - 100) dt.month)⟩
  else dt

/-- Date handling of `clean_dataset2` for a single cell: parse with
format `%d/%m/%y` (coercing errors to `NaT`), then apply the century fix
to the parsed dates. -/
def parseMatchDate (currentYear : Nat) (dmy : Nat × Nat × Nat) : Option MDate :=
  (parseDayMonthYear dmy.1 dmy.2.1 dmy.2.2).map (fixCentury currentYear)

/-- Season derivation (02_clean.py line 143).  The Python expression is
`A if x.month < 8 else (B if pd.notna(x) else None)`: for `NaT` the
`month` attribute is `nan` and `nan < 8` is `False`, so `NaT` falls into
the second conditional, where `pd.notna` fails and `None` is produced;
a valid date with `month < 8` yields `"{year-1}-{year}"` and any other
valid date yields `"{year}-{year+1}"`. -/
def seasonOf (x : Option MDate) : Option String :=
  match x with
  | some d =>
    if d.month < 8 then some (toString (d.year - 1) ++ "-" ++ toString d.year)
    else some (toString d.year ++ "-" ++ toString (d.year + 1))
  | none => none

/-- C7: for every parseable day/month/two-digit-year input, if the naively
parsed (`%y`-pivoted) year exceeds the as-of year then 100 years are
subtracted from it, otherwise it is kept. -/
theorem c7_century_resolution (currentYear : Nat) (dmy : Nat × Nat × Nat) (dt : MDate)
    (h : parseMatchDate currentYear dmy = some dt) :
    dt.year =
      if pivotYear dmy.2.2 > currentYear then pivotYear dmy.2.2 - 100
      else pivotYear dmy.2.2 := by
  obtain ⟨d, m, yy⟩ := dmy
  show dt.year = if pivotYear yy > currentYear then pivotYear yy - 100 else pivotYear yy
  unfold parseMatchDate at h
  simp only at h
  unfold parseDayMonthYear at h
  by_cases hc : yy ≤ 99 ∧ 1 ≤ m ∧ m ≤ 12 ∧ 1 ≤ d ∧ d ≤ daysInMonth (pivotYear yy) m
  · rw [if_pos hc] at h
    simp only [Option.map_some'] at h
    have hdt : dt = fixCentury currentYear ⟨pivotYear yy, m, d⟩ := (Option.some.inj h).symm
    subst hdt
    unfold fixCentury
    by_cases hy : pivotYear yy > currentYear
    · rw [if_pos hy, if_pos hy]
    · rw [if_neg hy, if_neg hy]
  · rw [if_neg hc] at h
    exact Option.noConfusion h

/-- C7 witness: with as-of year 2025, the input `01/01/26` resolves to the
year 1926 and `01/01/24` resolves to 2024, and both agree with the
conditional-subtraction rule. -/
theorem c7_century_resolution_witness :
    (parseMatchDate 2025 (1, 1, 26) = some ⟨1926, 1, 1⟩) ∧
    (MDate.mk 1926 1 1).year =
      (if pivotYear 26 > 2025 then pivotYear 26 - 100 else pivotYear 26) ∧
    (parseMatchDate 2025 (1, 1, 24) = some ⟨2024, 1, 1⟩) ∧
    (MDate.mk 2024 1 1).year =
      (if pivotYear 24 > 2025 then pivotYear 24 - 100 else pivotYear 24) :=
  ⟨by decide, c7_century_resolution 2025 (1, 1, 26) ⟨1926, 1, 1⟩ (by decide),
   by decide, c7_century_resolution 2025 (1, 1, 24) ⟨2024, 1, 1⟩ (by decide)⟩

/-- C8: for every valid parsed date, the season label is
`"{year-1}-{year}"` when the month is before August (month < 8) and
`"{year}-{year+1}"` otherwise; a null date yields a null season. -/
theorem c8_season_derivation :
    (∀ d : MDate, seasonOf (some d) =
      some (if d.month < 8 then toString (d.year - 1) ++ "-" ++ toString d.year
            else toString d.year ++ "-" ++ toString (d.year + 1))) ∧
    seasonOf none = none := by
  refine ⟨fun d => ?_, rfl⟩
  show (if d.month < 8 then some (toString (d.year - 1) ++ "-" ++ toString d.year)
    else some (toString d.year ++ "-" ++ toString (d.year + 1))) = _
  by_cases h : d.month < 8
  · rw [if_pos h, if_pos h]
  · rw [if_neg h, if_neg h]

/-! ## Row model of Dataset 2 and `clean_dataset2` (02_clean.py lines 88–164) -/

/-- One row of the raw `all_leagues_all_seasons.csv` table.  The `Date`
cell is modelled as already tokenized into (day, month, two-digit year),
`none` when the cell is not of that shape; numeric cells are modelled
after `pd.to_numeric(..., errors='coerce')` (step 4 of the script),
i.e. `none` for `NaN`. -/
structure RawRow where
  Date : Option (Nat × Nat × Nat)
  HomeTeam : Option String
  AwayTeam : Option String
  FTHG : Option Int
  FTAG : Option Int
  FTR : Option String
  HTHG : Option Int
  HTAG : Option Int
  HTR : Option String
  HS : Option Int
  AS : Option Int
  HST : Option Int
  AST : Option Int
  HF : Option Int
  AF : Option Int
  HC : Option Int
  AC : Option Int
  HY : Option Int
  AY : Option Int
  HR : Option Int
  AR : Option Int
  Referee : Option String
  league_name : Option String
deriving DecidableEq, Repr

/-- One row of `dataset2_clean.csv`: the raw columns plus the
standardized team names, the parsed/century-fixed date, the filled
integer card counts, and the derived season label. -/
structure CleanRow where
  Date : Option MDate
  HomeTeam : Option String
  AwayTeam : Option String
  HomeTeam_std : Option String
  AwayTeam_std : Option String
  FTHG : Option Int
  FTAG : Option Int
  FTR : Option String
  HTHG : Option Int
  HTAG : Option Int
  HTR : Option String
  HS : Option Int
  AS : Option Int
  HST : Option Int
  AST : Option Int
  HF : Option Int
  AF : Option Int
  HC : Option Int
  AC : Option Int
  HY : Int
  AY : Int
  HR : Int
  AR : Int
  Referee : Option String
  league_name : Option String
  Season : Option String
deriving DecidableEq, Repr

/-- `fillna(0).astype(int)` on one card cell (02_clean.py lines 123–126). -/
def fillCard (x : Option Int) : Int := x.getD 0

/-- Steps 1–5 of `clean_dataset2` for one row: team-name standardization,
date parsing with century fix, card fill, numeric type validation (the
identity on already-coerced cells) and season derivation. -/
def cleanRow1to5 (currentYear : Nat) (r : RawRow) : CleanRow :=
  { Date := r.Date.bind (parseMatchDate currentYear)
    HomeTeam := r.HomeTeam
    AwayTeam := r.AwayTeam
    HomeTeam_std := standardize_team_name r.HomeTeam
    AwayTeam_std := standardize_team_name r.AwayTeam
    FTHG := r.FTHG
    FTAG := r.FTAG
    FTR := r.FTR
    HTHG := r.HTHG
    HTAG := r.HTAG
    HTR := r.HTR
    HS := r.HS
    AS := r.AS
    HST := r.HST
    AST := r.AST
    HF := r.HF
    AF := r.AF
    HC := r.HC
    AC := r.AC
    HY := fillCard r.HY
    AY := fillCard r.AY
    HR := fillCard r.HR
    AR := fillCard r.AR
    Referee := r.Referee
    league_name := r.league_name
    Season := seasonOf (r.Date.bind (parseMatchDate currentYear)) }

/-- numpy/pandas `>` on possibly-NaN cells: any comparison with `NaN`
is `False`. -/
def optGtInt (a b : Option Int) : Bool :=
  match a, b with
  | some x, some y => x > y
  | _, _ => false

/-- The per-row `FTR_calculated` lambda (02_clean.py lines 147–151):
`'H' if FTHG > FTAG else ('A' if FTAG > FTHG else 'D')`. -/
def ftrCalculated (hg ag : Option Int) : String :=
  if optGtInt hg ag then "H" else if optGtInt ag hg then "A" else "D"

/-- Step 6 of `clean_dataset2` (02_clean.py lines 146–158): the stored
`FTR` column is compared against `FTR_calculated` over the whole table
(pandas `!=` counts a `NaN` cell as a mismatch); when at least one row
mismatches, the entire column is overwritten with the calculated
values, and the helper column is dropped. -/
def resolveFTR (cleaned : List CleanRow) : List CleanRow :=
  if (cleaned.filter (fun r => !(r.FTR == some (ftrCalculated r.FTHG r.FTAG)))).length > 0 then
    cleaned.map (fun r => { r with FTR := some (ftrCalculated r.FTHG r.FTAG) })
  else cleaned

/-- `clean_dataset2` (02_clean.py lines 88–164): the per-row cleaning
steps followed by the table-wide result reconciliation. -/
def clean_dataset2 (currentYear : Nat) (rows : List RawRow) : List CleanRow :=
  resolveFTR (rows.map (cleanRow1to5 currentYear))

theorem resolveFTR_ftr (cleaned : List CleanRow) (r : CleanRow)
    (hr : r ∈ resolveFTR cleaned) : r.FTR = some (ftrCalculated r.FTHG r.FTAG) := by
  unfold resolveFTR at hr
  by_cases hm :
      (cleaned.filter (fun r => !(r.FTR == some (ftrCalculated r.FTHG r.FTAG)))).length > 0
  · rw [if_pos hm] at hr
    rcases List.mem_map.1 hr with ⟨r0, _, hre⟩
    rw [← hre]
  · rw [if_neg hm] at hr
    have hnil : (cleaned.filter
        (fun r => !(r.FTR == some (ftrCalculated r.FTHG r.FTAG)))) = [] :=
      List.length_eq_zero.1 (by omega)
    have hall := List.filter_eq_nil_iff.1 hnil r hr
    simp only [Bool.not_eq_true', Bool.not_eq_false] at hall
    exact eq_of_beq hall

theorem clean_dataset2_ftr (currentYear : Nat) (rows : List RawRow) (r : CleanRow)
    (hr : r ∈ clean_dataset2 currentYear rows) :
    r.FTR = some (ftrCalculated r.FTHG r.FTAG) :=
  resolveFTR_ftr _ r hr

/-- C1: for every cleaned match row in which both full-time goal fields
are non-null, the stored result is `H` if home goals exceed away goals,
`A` if away goals exceed home goals and `D` otherwise, regardless of the
result value present in the source row. -/
theorem c1_result_reconciliation (currentYear : Nat) (rows : List RawRow) (r : CleanRow)
    (hr : r ∈ clean_dataset2 currentYear rows) (hg ag : Int)
    (hh : r.FTHG = some hg) (ha : r.FTAG = some ag) :
    r.FTR = some (if hg > ag then "H" else if ag > hg then "A" else "D") := by
  rw [clean_dataset2_ftr currentYear rows r hr, hh, ha]
  by_cases h1 : hg > ag
  · simp [ftrCalculated, optGtInt, h1]
  · by_cases h2 : ag > hg
    · simp [ftrCalculated, optGtInt, h1, h2]
    · simp [ftrCalculated, optGtInt, h1, h2]

/-- A concrete raw row whose stored result `A` disagrees with its goals
2–1. -/
def c1RawRow : RawRow :=
  { Date := none, HomeTeam := none, AwayTeam := none,
    FTHG := some 2, FTAG := some 1, FTR := some "A",
    HTHG := none, HTAG := none, HTR := none,
    HS := none, AS := none, HST := none, AST := none,
    HF := none, AF := none, HC := none, AC := none,
    HY := none, AY := none, HR := none, AR := none,
    Referee := none, league_name := none }

/-- The row `c1RawRow` after cleaning: the stored result has been
replaced by the calculated `H`. -/
def c1OutRow : CleanRow :=
  { Date := none, HomeTeam := none, AwayTeam := none,
    HomeTeam_std := none, AwayTeam_std := none,
    FTHG := some 2, FTAG := some 1, FTR := some "H",
    HTHG := none, HTAG := none, HTR := none,
    HS := none, AS := none, HST := none, AST := none,
    HF := none, AF := none, HC := none, AC := none,
    HY := 0, AY := 0, HR := 0, AR := 0,
    Referee := none, league_name := none, Season := none }

/-- C1 witness: cleaning the one-row table `[c1RawRow]` (source result
`A`, goals 2–1) yields `c1OutRow`, whose result is the recomputed `H`. -/
theorem c1_result_reconciliation_witness :
    c1OutRow ∈ clean_dataset2 2025 [c1RawRow] ∧
    c1OutRow.FTHG = some 2 ∧ c1OutRow.FTAG = some 1 ∧
    c1OutRow.FTR = some (if (2 : Int) > 1 then "H" else if (1 : Int) > 2 then "A" else "D") :=
  ⟨by decide, by decide, by decide,
   c1_result_reconciliation 2025 [c1RawRow] c1OutRow (by decide) 2 1 (by decide) (by decide)⟩

/-- A concrete raw row with a null home-goal field and stored result
`A`. -/
def c5RawRow : RawRow :=
  { Date := none, HomeTeam := none, AwayTeam := none,
    FTHG := none, FTAG := some 1, FTR := some "A",
    HTHG := none, HTAG := none, HTR := none,
    HS := none, AS := none, HST := none, AST := none,
    HF := none, AF := none, HC := none, AC := none,
    HY := none, AY := none, HR := none, AR := none,
    Referee := none, league_name := none }

/-- C5 counterexample: on a row whose home-goal field is null the
cleaning stage does not skip result recomputation: the stored source
value `A` is replaced by the recomputed placeholder `D` (both `NaN`
comparisons in the calculated-result lambda evaluate to `False`). -/
theorem c5_skip_on_null_cex :
    (clean_dataset2 2025 [c5RawRow]).map (fun r => r.FTR) = [some "D"] ∧
    c5RawRow.FTHG = none ∧ c5RawRow.FTR = some "A" := by decide

/-- C5 (amended): for every cleaned row in which either full-time goal
field is null, recomputation of the result is not skipped: the null
comparisons evaluate to false, the calculated result is `D`, and after
cleaning the row always stores result `D` (the column is overwritten
when the table contains any mismatch, and otherwise already equalled
the calculated value).  The stage is a total function — it never
raises. -/
theorem c5_null_goal_result (currentYear : Nat) (rows : List RawRow) (r : CleanRow)
    (hr : r ∈ clean_dataset2 currentYear rows)
    (hnull : r.FTHG = none ∨ r.FTAG = none) :
    r.FTR = some "D" := by
  rw [clean_dataset2_ftr currentYear rows r hr]
  rcases hnull with h | h
  · rw [h]
    cases r.FTAG <;> rfl
  · rw [h]
    cases r.FTHG <;> rfl

/-- The row `c5RawRow` after cleaning: the null-goal row stores the
recomputed `D`. -/
def c5OutRow : CleanRow :=
  { Date := none, HomeTeam := none, AwayTeam := none,
    HomeTeam_std := none, AwayTeam_std := none,
    FTHG := none, FTAG := some 1, FTR := some "D",
    HTHG := none, HTAG := none, HTR := none,
    HS := none, AS := none, HST := none, AST := none,
    HF := none, AF := none, HC := none, AC := none,
    HY := 0, AY := 0, HR := 0, AR := 0,
    Referee := none, league_name := none, Season := none }

/-- C5 witness: a concrete instance of the amended theorem on the
one-row table `[c5RawRow]`. -/
theorem c5_null_goal_result_witness :
    c5OutRow ∈ clean_dataset2 2025 [c5RawRow] ∧
    (c5OutRow.FTHG = none ∨ c5OutRow.FTAG = none) ∧
    c5OutRow.FTR = some "D" :=
  ⟨by decide, Or.inl (by decide),
   c5_null_goal_result 2025 [c5RawRow] c5OutRow (by decide) (Or.inl (by decide))⟩

/-! ## MD5 digest and `generate_match_id` (03_integrate.py lines 24–40) -/

def M32 : Nat := 4294967296

/-- 32-bit bitwise complement. -/
def not32 (x : Nat) : Nat := (x % M32) ^^^ 4294967295

/-- 32-bit left rotation. -/
def rotl32 (x s : Nat) : Nat :=
  ((x <<< s) ||| (x >>> (32 - s))) % M32

def md5F (b c d : Nat) : Nat := (b &&& c) ||| (not32 b &&& d)

def md5G (b c d : Nat) : Nat := (d &&& b) ||| (not32 d &&& c)

def md5H (b c d : Nat) : Nat := b ^^^ c ^^^ d

def md5I (b c d : Nat) : Nat := c ^^^ (b ||| not32 d)

/-- The per-round left-rotation amounts of MD5 (RFC 1321). -/
def md5S : List Nat :=
  [7, 12, 17, 22, 7, 12, 17, 22, 7, 12, 17, 22, 7, 12, 17, 22,
   5, 9, 14, 20, 5, 9, 14, 20, 5, 9, 14, 20, 5, 9, 14, 20,
   4, 11, 16, 23, 4, 11, 16, 23, 4, 11, 16, 23, 4, 11, 16, 23,
   6, 10, 15, 21, 6, 10, 15, 21, 6, 10, 15, 21, 6, 10, 15, 21]

/-- The 64 sine-derived MD5 round constants (RFC 1321). -/
def md5K : List Nat :=
  [0xd76aa478, 0xe8c7b756, 0x242070db, 0xc1bdceee,
   0xf57c0faf, 0x4787c62a, 0xa8304613, 0xfd469501,
   0x698098d8, 0x8b44f7af, 0xffff5bb1, 0x895cd7be,
   0x6b901122, 0xfd987193, 0xa679438e, 0x49b40821,
   0xf61e2562, 0xc040b340, 0x265e5a51, 0xe9b6c7aa,
   0xd62f105d, 0x02441453, 0xd8a1e681, 0xe7d3fbc8,
   0x21e1cde6, 0xc33707d6, 0xf4d50d87, 0x455a14ed,
   0xa9e3e905, 0xfcefa3f8, 0x676f02d9, 0x8d2a4c8a,
   0xfffa3942, 0x8771f681, 0x6d9d6122, 0xfde5380c,
   0xa4beea44, 0x4bdecfa9, 0xf6bb4b60, 0xbebfbc70,
   0x289b7ec6, 0xeaa127fa, 0xd4ef3085, 0x04881d05,
   0xd9d4d039, 0xe6db99e5, 0x1fa27cf8, 0xc4ac5665,
   0xf4292244, 0x432aff97, 0xab9423a7, 0xfc93a039,
   0x655b59c3, 0x8f0ccc92, 0xffeff47d, 0x85845dd1,
   0x6fa87e4f, 0xfe2ce6e0, 0xa3014314, 0x4e0811a1,
   0xf7537e82, 0xbd3af235, 0x2ad7d2bb, 0xeb86d391]

/-- Message-word index schedule of round `i`. -/
def md5g (i : Nat) : Nat :=
  if i < 16 then i
  else if i < 32 then (5 * i + 1) % 16
  else if i < 48 then (3 * i + 5) % 16
  else (7 * i) % 16

/-- Mixing function of round `i`. -/
def md5f (i b c d : Nat) : Nat :=
  if i < 16 then md5F b c d
  else if i < 32 then md5G b c d
  else if i < 48 then md5H b c d
  else md5I b c d

/-- Little-endian 32-bit word `g` of a 64-byte chunk. -/
def leWord (chunk : List Nat) (g : Nat) : Nat :=
  chunk.getD (4 * g) 0 + 256 * chunk.getD (4 * g + 1) 0 +
    65536 * chunk.getD (4 * g + 2) 0 + 16777216 * chunk.getD (4 * g + 3) 0

/-- One of the 64 MD5 rounds on the running state `(a, b, c, d)`. -/
def md5Round (chunk : List Nat) (st : Nat × Nat × Nat × Nat) (i : Nat) :
    Nat × Nat × Nat × Nat :=
  let f := (md5f i st.2.1 st.2.2.1 st.2.2.2 + st.1 + md5K.getD i 0
    + leWord chunk (md5g i)) % M32
  (st.2.2.2, (st.2.1 + rotl32 f (md5S.getD i 0)) % M32, st.2.1, st.2.2.1)

/-- Process one 64-byte chunk and add the result into the state. -/
def md5Chunk (st : Nat × Nat × Nat × Nat) (chunk : List Nat) : Nat × Nat × Nat × Nat :=
  let r := (List.range 64).foldl (md5Round chunk) st
  ((st.1 + r.1) % M32, (st.2.1 + r.2.1) % M32, (st.2.2.1 + r.2.2.1) % M32,
   (st.2.2.2 + r.2.2.2) % M32)

/-- The `k` low-order bytes of `n`, little-endian. -/
def leBytes : Nat → Nat → List Nat
  | 0, _ => []
  | k + 1, n => (n % 256) :: leBytes k (n / 256)

/-- MD5 padding: a `0x80` byte, zeros up to 56 mod 64, then the bit
length as a little-endian 64-bit quantity. -/
def md5Pad (msg : List Nat) : List Nat :=
  msg ++ [128] ++ List.replicate ((64 + 56 - ((msg.length + 1) % 64)) % 64) 0
    ++ leBytes 8 (msg.length * 8)

/-- Split a byte list into successive 64-byte chunks. -/
def chunks64 (l : List Nat) : List (List Nat) :=
  if h : l = [] then [] else l.take 64 :: chunks64 (l.drop 64)
termination_by l.length
decreasing_by
  have hp : 0 < l.length := List.length_pos.2 h
  simp only [List.length_drop]
  omega

/-- The 16-byte MD5 digest of a byte string (RFC 1321; verified against
the reference digests of `""`, `"abc"` and `"The quick brown fox jumps
over the lazy dog"`). -/
def md5Bytes (msg : List Nat) : List Nat :=
  let r := (chunks64 (md5Pad msg)).foldl md5Chunk
    (0x67452301, 0xefcdab89, 0x98badcfe, 0x10325476)
  leBytes 4 r.1 ++ leBytes 4 r.2.1 ++ leBytes 4 r.2.2.1 ++ leBytes 4 r.2.2.2

def hexDigitChar (n : Nat) : Char :=
  "0123456789abcdef".data.getD n '0'

/-- `hashlib.md5(...).hexdigest()`: the 32-character lowercase hex form
of the digest. -/
def md5hex (msg : List Nat) : String :=
  String.mk ((md5Bytes msg).foldr
    (fun b acc => hexDigitChar (b / 16) :: hexDigitChar (b % 16) :: acc) [])

/-- Python `str.encode()` (UTF-8) for one character. -/
def utf8Char (c : Char) : List Nat :=
  let n := c.toNat
  if n < 128 then [n]
  else if n < 2048 then [192 + n / 64, 128 + n % 64]
  else if n < 65536 then [224 + n / 4096, 128 + (n / 64) % 64, 128 + n % 64]
  else [240 + n / 262144, 128 + (n / 4096) % 64, 128 + (n / 64) % 64, 128 + n % 64]

/-- Python `str.encode()` (UTF-8). -/
def utf8Bytes (s : String) : List Nat :=
  (s.data.map utf8Char).flatten

/-- Decimal rendering zero-padded to width 2, as in `str(pd.Timestamp)`. -/
def pad2 (n : Nat) : String :=
  if n < 10 then "0" ++ toString n else toString n

/-- Decimal rendering zero-padded to width 4, as in `str(pd.Timestamp)`. -/
def pad4 (n : Nat) : String :=
  (if n < 10 then "000" else if n < 100 then "00" else if n < 1000 then "0" else "")
    ++ toString n

/-- The f-string rendering of the `Date` cell inside `generate_match_id`:
a `pd.Timestamp` renders as `YYYY-MM-DD 00:00:00`, `NaT` renders as
`"NaT"`. -/
def fmtDateCell (x : Option MDate) : String :=
  match x with
  | some d => pad4 d.year ++ "-" ++ pad2 d.month ++ "-" ++ pad2 d.day ++ " 00:00:00"
  | none => "NaT"

/-- The f-string rendering of a possibly-NaN string cell: `NaN` renders
as `"nan"`. -/
def fmtStrCell (x : Option String) : String := x.getD "nan"

/-- The identity string of `generate_match_id` (03_integrate.py line 35):
`f"{Date}_{HomeTeam_std}_{AwayTeam_std}_{league_name}"`. -/
def matchString (r : CleanRow) : String :=
  fmtDateCell r.Date ++ "_" ++ fmtStrCell r.HomeTeam_std ++ "_" ++
    fmtStrCell r.AwayTeam_std ++ "_" ++ fmtStrCell r.league_name

/-- `generate_match_id` (03_integrate.py lines 24–40): the MD5 hex digest
of the identity string, truncated to its first 16 hex characters
(64 bits of digest material). -/
def generate_match_id (r : CleanRow) : String :=
  String.mk ((md5hex (utf8Bytes (matchString r))).data.take 16)

/-- C2: the match-identity assigner is deterministic — it is a pure
function of the four identity fields (date, standardized home team,
standardized away team, league), so any two rows that agree on those
fields (over any number of invocations or re-runs) receive the same
identifier. -/
theorem c2_match_id_deterministic (r1 r2 : CleanRow)
    (hdate : r1.Date = r2.Date) (hhome : r1.HomeTeam_std = r2.HomeTeam_std)
    (haway : r1.AwayTeam_std = r2.AwayTeam_std)
    (hleague : r1.league_name = r2.league_name) :
    generate_match_id r1 = generate_match_id r2 := by
  unfold generate_match_id matchString
  rw [hdate, hhome, haway, hleague]

/-- A cleaned row of a concrete match. -/
def c2RowA : CleanRow :=
  { Date := some ⟨2024, 8, 1⟩, HomeTeam := some "Man United", AwayTeam := some "Spurs",
    HomeTeam_std := some "manchester united", AwayTeam_std := some "tottenham hotspur",
    FTHG := some 2, FTAG := some 1, FTR := some "H",
    HTHG := none, HTAG := none, HTR := none,
    HS := none, AS := none, HST := none, AST := none,
    HF := none, AF := none, HC := none, AC := none,
    HY := 0, AY := 0, HR := 0, AR := 0,
    Referee := none, league_name := some "EPL", Season := some "2024-2025" }

/-- A different row (other goals, result and referee) with the same four
identity fields as `c2RowA`. -/
def c2RowB : CleanRow :=
  { Date := some ⟨2024, 8, 1⟩, HomeTeam := some "Man United", AwayTeam := some "Spurs",
    HomeTeam_std := some "manchester united", AwayTeam_std := some "tottenham hotspur",
    FTHG := some 0, FTAG := some 0, FTR := some "D",
    HTHG := none, HTAG := none, HTR := none,
    HS := none, AS := none, HST := none, AST := none,
    HF := none, AF := none, HC := none, AC := none,
    HY := 2, AY := 1, HR := 0, AR := 0,
    Referee := some "M Oliver", league_name := some "EPL", Season := some "2024-2025" }

/-- C2 witness: two distinct concrete rows agreeing on the four identity
fields receive the same identifier. -/
theorem c2_match_id_deterministic_witness :
    c2RowA.Date = c2RowB.Date ∧ c2RowA.HomeTeam_std = c2RowB.HomeTeam_std ∧
    c2RowA.AwayTeam_std = c2RowB.AwayTeam_std ∧
    c2RowA.league_name = c2RowB.league_name ∧ c2RowA ≠ c2RowB ∧
    generate_match_id c2RowA = generate_match_id c2RowB :=
  ⟨rfl, rfl, rfl, rfl, by decide,
   c2_match_id_deterministic c2RowA c2RowB rfl rfl rfl rfl⟩

/-! ## Integrated schema (03_integrate.py lines 43–198) -/

/-- One row of `dataset1_teams_clean.csv` (the optional enrichment
table). -/
structure TeamRow where
  teamId : Option Int
  name : Option String
  name_std : Option String
  displayName : Option String
  displayName_std : Option String
  location : Option String
  abbreviation : Option String
deriving DecidableEq, Repr

/-- One row of the integrated dataset: the renamed match columns
followed by the derived analytic fields. -/
structure IntRow where
  match_id : String
  match_date : Option MDate
  season : Option String
  league : Option String
  home_team : Option String
  away_team : Option String
  home_team_original : Option String
  away_team_original : Option String
  home_goals : Option Int
  away_goals : Option Int
  result : Option String
  halftime_home_goals : Option Int
  halftime_away_goals : Option Int
  halftime_result : Option String
  home_shots : Option Int
  away_shots : Option Int
  home_shots_on_target : Option Int
  away_shots_on_target : Option Int
  home_fouls : Option Int
  away_fouls : Option Int
  home_yellow_cards : Int
  away_yellow_cards : Int
  home_red_cards : Int
  away_red_cards : Int
  home_corners : Option Int
  away_corners : Option Int
  referee : Option String
  goal_differential : Option Int
  home_shot_accuracy : Option ℚ
  away_shot_accuracy : Option ℚ
  shot_differential : Option Int
  home_total_cards : Int
  away_total_cards : Int
  card_differential : Int
  total_goals : Option Int
  home_win : Int
  away_win : Int
  draw : Int
deriving DecidableEq, Repr

/-- pandas `+` on possibly-NaN cells: `NaN` propagates. -/
def optAddInt (a b : Option Int) : Option Int :=
  match a, b with
  | some x, some y => some (x + y)
  | _, _ => none

/-- pandas `-` on possibly-NaN cells: `NaN` propagates. -/
def optSubInt (a b : Option Int) : Option Int :=
  match a, b with
  | some x, some y => some (x - y)
  | _, _ => none

/-- `np.where(shots > 0, shots_on_target / shots, np.nan)` on one row:
a `NaN` shots cell makes the condition `False` (yielding `NaN`), a
non-positive shots cell takes the `np.nan` branch, and a `NaN`
numerator propagates through the float division. -/
def shotAccuracy (shots sot : Option Int) : Option ℚ :=
  match shots with
  | some s =>
    if s > 0 then
      match sot with
      | some t => some ((t : ℚ) / (s : ℚ))
      | none => none
    else none
  | none => none

/-- The per-row computation of `create_integrated_dataset`
(03_integrate.py lines 61–193): identifier assignment, rename/reshape
into the unified schema, and the derived analytic fields. -/
def integrateRow (r : CleanRow) : IntRow :=
  { match_id := generate_match_id r
    match_date := r.Date
    season := r.Season
    league := r.league_name
    home_team := r.HomeTeam_std
    away_team := r.AwayTeam_std
    home_team_original := r.HomeTeam
    away_team_original := r.AwayTeam
    home_goals := r.FTHG
    away_goals := r.FTAG
    result := r.FTR
    halftime_home_goals := r.HTHG
    halftime_away_goals := r.HTAG
    halftime_result := r.HTR
    home_shots := r.HS
    away_shots := r.AS
    home_shots_on_target := r.HST
    away_shots_on_target := r.AST
    home_fouls := r.HF
    away_fouls := r.AF
    home_yellow_cards := r.HY
    away_yellow_cards := r.AY
    home_red_cards := r.HR
    away_red_cards := r.AR
    home_corners := r.HC
    away_corners := r.AC
    referee := r.Referee
    goal_differential := optSubInt r.FTHG r.FTAG
    home_shot_accuracy := shotAccuracy r.HS r.HST
    away_shot_accuracy := shotAccuracy r.AS r.AST
    shot_differential := optSubInt r.HS r.AS
    home_total_cards := r.HY + r.HR * 2
    away_total_cards := r.AY + r.AR * 2
    card_differential := (r.HY + r.HR * 2) - (r.AY + r.AR * 2)
    total_goals := optAddInt r.FTHG r.FTAG
    home_win := if r.FTR = some "H" then 1 else 0
    away_win := if r.FTR = some "A" then 1 else 0
    draw := if r.FTR = some "D" then 1 else 0 }

/-- `create_integrated_dataset` (03_integrate.py lines 43–198).  The
match table is the base and every step is column-wise, i.e. per row;
the `df_teams` parameter is accepted but never read by the function
body, exactly as in the source (when Dataset 1 is missing, `main`
passes an empty table, 03_integrate.py lines 363–371). -/
def create_integrated_dataset (df_matches : List CleanRow) (df_teams : List TeamRow) :
    List IntRow :=
  df_matches.map integrateRow

/-- C3: the integrated output has exactly as many rows as the input
match table, for every match table and every (possibly empty)
team-reference table — integration is a 1:1 reshape, never a fan-out or
fan-in join. -/
theorem c3_row_count_preservation (df_matches : List CleanRow) (df_teams : List TeamRow) :
    (create_integrated_dataset df_matches df_teams).length = df_matches.length :=
  List.length_map df_matches integrateRow

/-- C10: the integrated output is completely independent of the
team-reference table — integration with any two team tables (including
the empty one) produces identical output, because the `df_teams`
argument is never read. -/
theorem c10_teams_independence (df_matches : List CleanRow)
    (df_teams1 df_teams2 : List TeamRow) :
    create_integrated_dataset df_matches df_teams1 =
      create_integrated_dataset df_matches df_teams2 := rfl

theorem shotAccuracy_some (s : Int) (sot : Option Int) :
    shotAccuracy (some s) sot =
      if s > 0 then Option.map (fun t : Int => (t : ℚ) / (s : ℚ)) sot else none := by
  show (if s > 0 then
      match sot with
      | some t => some ((t : ℚ) / (s : ℚ))
      | none => none
    else none) = _
  by_cases hpos : s > 0
  · rw [if_pos hpos, if_pos hpos]
    cases sot <;> rfl
  · rw [if_neg hpos, if_neg hpos]

theorem shotAccuracy_none (sot : Option Int) : shotAccuracy none sot = none := rfl

/-- C4: in every integrated row, the goal differential is the difference
of the goal fields, the total is their sum, and each side's shot
accuracy is shots-on-target divided by shots when shots > 0 and null
otherwise (a null or non-positive denominator never reaches the
division). -/
theorem c4_derived_field_consistency (ms : List CleanRow) (ts : List TeamRow) (r : IntRow)
    (hr : r ∈ create_integrated_dataset ms ts) :
    r.goal_differential = optSubInt r.home_goals r.away_goals ∧
    r.total_goals = optAddInt r.home_goals r.away_goals ∧
    (∀ s : Int, r.home_shots = some s → 0 < s →
      r.home_shot_accuracy =
        Option.map (fun t : Int => (t : ℚ) / (s : ℚ)) r.home_shots_on_target) ∧
    ((r.home_shots = none ∨ ∃ s : Int, r.home_shots = some s ∧ s ≤ 0) →
      r.home_shot_accuracy = none) ∧
    (∀ s : Int, r.away_shots = some s → 0 < s →
      r.away_shot_accuracy =
        Option.map (fun t : Int => (t : ℚ) / (s : ℚ)) r.away_shots_on_target) ∧
    ((r.away_shots = none ∨ ∃ s : Int, r.away_shots = some s ∧ s ≤ 0) →
      r.away_shot_accuracy = none) := by
  rcases List.mem_map.1 hr with ⟨r0, _, hre⟩
  subst hre
  refine ⟨rfl, rfl, ?_, ?_, ?_, ?_⟩
  · intro s hs hpos
    show shotAccuracy r0.HS r0.HST = _
    have hhs : (integrateRow r0).home_shots = r0.HS := rfl
    rw [hhs] at hs
    rw [hs, shotAccuracy_some, if_pos hpos]
    rfl
  · intro hcase
    show shotAccuracy r0.HS r0.HST = none
    rcases hcase with hnone | ⟨s, hs, hle⟩
    · have hn : r0.HS = none := hnone
      rw [hn, shotAccuracy_none]
    · have hn : r0.HS = some s := hs
      rw [hn, shotAccuracy_some, if_neg (by omega : ¬s > 0)]
  · intro s hs hpos
    show shotAccuracy r0.AS r0.AST = _
    have has : (integrateRow r0).away_shots = r0.AS := rfl
    rw [has] at hs
    rw [hs, shotAccuracy_some, if_pos hpos]
    rfl
  · intro hcase
    show shotAccuracy r0.AS r0.AST = none
    rcases hcase with hnone | ⟨s, hs, hle⟩
    · have hn : r0.AS = none := hnone
      rw [hn, shotAccuracy_none]
    · have hn : r0.AS = some s := hs
      rw [hn, shotAccuracy_some, if_neg (by omega : ¬s > 0)]

/-- A cleaned row with 3-of-4 home shots on target and 0 away shots. -/
def c4Row : CleanRow :=
  { Date := none, HomeTeam := none, AwayTeam := none,
    HomeTeam_std := none, AwayTeam_std := none,
    FTHG := some 2, FTAG := some 1, FTR := some "H",
    HTHG := none, HTAG := none, HTR := none,
    HS := some 4, AS := some 0, HST := some 3, AST := some 5,
    HF := none, AF := none, HC := none, AC := none,
    HY := 0, AY := 0, HR := 0, AR := 0,
    Referee := none, league_name := none, Season := none }

/-- C4 witness: on the concrete row `c4Row` the theorem yields
`goal_differential = 2 - 1`, `total_goals = 2 + 1`, a home shot accuracy
of 3/4, and a null away shot accuracy for the 0-shot away side. -/
theorem c4_derived_field_consistency_witness :
    integrateRow c4Row ∈ create_integrated_dataset [c4Row] [] ∧
    (integrateRow c4Row).goal_differential =
      optSubInt (integrateRow c4Row).home_goals (integrateRow c4Row).away_goals ∧
    (integrateRow c4Row).total_goals =
      optAddInt (integrateRow c4Row).home_goals (integrateRow c4Row).away_goals ∧
    (integrateRow c4Row).home_shot_accuracy =
      Option.map (fun t : Int => (t : ℚ) / (((4 : Int)) : ℚ))
        (integrateRow c4Row).home_shots_on_target ∧
    (integrateRow c4Row).away_shot_accuracy = none := by
  have hm : integrateRow c4Row ∈ create_integrated_dataset [c4Row] [] :=
    List.mem_singleton_self _
  have h := c4_derived_field_consistency [c4Row] [] (integrateRow c4Row) hm
  exact ⟨hm, h.1, h.2.1, h.2.2.1 4 rfl (by norm_num),
    h.2.2.2.2.2 (Or.inr ⟨0, rfl, le_refl 0⟩)⟩

/-! ## Integration validator (03_integrate.py lines 201–243) -/

/-- The pass/fail checks of `validate_integration`.  (The completeness
percentages the script also prints are descriptive statistics, not
pass/fail checks, and are omitted.) -/
structure IntegrationValidation where
  record_count_match : Bool
  no_duplicate_ids : Bool
  no_missing_goals : Bool
  no_missing_dates : Bool
  valid_results : Bool
  all_passed : Bool
deriving DecidableEq, Repr

/-- `validate_integration` (03_integrate.py lines 201–243): the five
pass/fail checks, each computed independently from the whole table, and
their conjunction `all_passed`.  `nunique` counts distinct identifiers;
the null counts follow `isnull().sum()`; `isin(['H','A','D'])` is false
on a `NaN` cell. -/
def validate_integration (df_integrated : List IntRow) (df_matches : List CleanRow) :
    IntegrationValidation :=
  { record_count_match := df_integrated.length == df_matches.length
    no_duplicate_ids :=
      (df_integrated.map (fun r => r.match_id)).dedup.length == df_integrated.length
    no_missing_goals :=
      ((df_integrated.filter (fun r => r.home_goals.isNone)).length +
        (df_integrated.filter (fun r => r.away_goals.isNone)).length) == 0
    no_missing_dates := (df_integrated.filter (fun r => r.match_date.isNone)).length == 0
    valid_results := df_integrated.all
      (fun r => r.result == some "H" || r.result == some "A" || r.result == some "D")
    all_passed :=
      (df_integrated.length == df_matches.length) &&
      ((df_integrated.map (fun r => r.match_id)).dedup.length == df_integrated.length) &&
      (((df_integrated.filter (fun r => r.home_goals.isNone)).length +
        (df_integrated.filter (fun r => r.away_goals.isNone)).length) == 0) &&
      ((df_integrated.filter (fun r => r.match_date.isNone)).length == 0) &&
      (df_integrated.all
        (fun r => r.result == some "H" || r.result == some "A" || r.result == some "D")) }

/-- Modelled from the spec: the no-missing-core-fields requirement of
§4.6 — no null values in the core field set {identifier, date, teams,
goals, result, league, season}.  The identifier column is a
non-nullable string in this embedding (`generate_match_id` always
returns a string), so the null conditions concern the remaining
fields. -/
def specCoreFieldsComplete (df : List IntRow) : Bool :=
  df.all fun r =>
    r.match_date.isSome && r.home_team.isSome && r.away_team.isSome &&
    r.home_goals.isSome && r.away_goals.isSome && r.result.isSome &&
    r.league.isSome && r.season.isSome

theorem dedup_length_eq_iff_nodup {α : Type} [DecidableEq α] (l : List α) :
    (l.dedup.length = l.length) ↔ l.Nodup := by
  constructor
  · intro h
    have he : l.dedup = l := (List.dedup_sublist l).eq_of_length h
    exact he ▸ List.nodup_dedup l
  · intro h
    rw [List.dedup_eq_self.2 h]

/-- C6 (amended): the validation report contains five independently
computed and reported checks — row-count match, identifier uniqueness,
no nulls in the two goal fields, no nulls in the date field, and every
result in {H, A, D} (which also fails on a null result).  No check
covers nulls in the identifier, team, league or season columns, so the
check set does not decide the spec's full no-missing-core-fields
requirement. -/
theorem c6_validation_checks (df : List IntRow) (dm : List CleanRow) :
    ((validate_integration df dm).record_count_match = true ↔ df.length = dm.length) ∧
    ((validate_integration df dm).no_duplicate_ids = true ↔
      (df.map (fun r => r.match_id)).Nodup) ∧
    ((validate_integration df dm).no_missing_goals = true ↔
      ∀ r ∈ df, r.home_goals ≠ none ∧ r.away_goals ≠ none) ∧
    ((validate_integration df dm).no_missing_dates = true ↔
      ∀ r ∈ df, r.match_date ≠ none) ∧
    ((validate_integration df dm).valid_results = true ↔
      ∀ r ∈ df, r.result = some "H" ∨ r.result = some "A" ∨ r.result = some "D") := by
  refine ⟨?_, ?_, ?_, ?_, ?_⟩
  · show (df.length == dm.length) = true ↔ _
    exact beq_iff_eq
  · show ((df.map (fun r => r.match_id)).dedup.length == df.length) = true ↔ _
    rw [beq_iff_eq, ← List.length_map df (fun r => r.match_id)]
    exact dedup_length_eq_iff_nodup _
  · show (((df.filter (fun r => r.home_goals.isNone)).length +
      (df.filter (fun r => r.away_goals.isNone)).length) == 0) = true ↔ _
    rw [beq_iff_eq, Nat.add_eq_zero, List.length_eq_zero, List.length_eq_zero,
      List.filter_eq_nil_iff, List.filter_eq_nil_iff]
    constructor
    · rintro ⟨h1, h2⟩ r hr
      refine ⟨fun hn => h1 r hr ?_, fun hn => h2 r hr ?_⟩
      · rw [hn]; rfl
      · rw [hn]; rfl
    · intro h
      refine ⟨fun r hr hno => (h r hr).1 ?_, fun r hr hno => (h r hr).2 ?_⟩
      · exact Option.isNone_iff_eq_none.1 hno
      · exact Option.isNone_iff_eq_none.1 hno
  · show ((df.filter (fun r => r.match_date.isNone)).length == 0) = true ↔ _
    rw [beq_iff_eq, List.length_eq_zero, List.filter_eq_nil_iff]
    constructor
    · intro h1 r hr hn
      exact h1 r hr (by rw [hn]; rfl)
    · intro h r hr hno
      exact h r hr (Option.isNone_iff_eq_none.1 hno)
  · show (df.all
      (fun r => r.result == some "H" || r.result == some "A" || r.result == some "D")) =
        true ↔ _
    rw [List.all_eq_true]
    constructor
    · intro h r hr
      have hx := h r hr
      simp only [Bool.or_eq_true, beq_iff_eq] at hx
      tauto
    · intro h r hr
      have hx := h r hr
      simp only [Bool.or_eq_true, beq_iff_eq]
      tauto

/-- A cleaned match row used only to give the validator a one-row input
table for the row-count check. -/
def c6MatchRow : CleanRow :=
  { Date := none, HomeTeam := none, AwayTeam := none,
    HomeTeam_std := none, AwayTeam_std := none,
    FTHG := some 2, FTAG := some 1, FTR := some "H",
    HTHG := none, HTAG := none, HTR := none,
    HS := none, AS := none, HST := none, AST := none,
    HF := none, AF := none, HC := none, AC := none,
    HY := 0, AY := 0, HR := 0, AR := 0,
    Referee := none, league_name := none, Season := none }

/-- An integrated row whose season — a core field per the spec — is
null, while every value that `validate_integration` inspects is present
and consistent. -/
def c6IntRow : IntRow :=
  { match_id := "0123456789abcdef", match_date := some ⟨2024, 8, 1⟩, season := none,
    league := some "EPL", home_team := some "a", away_team := some "b",
    home_team_original := some "A", away_team_original := some "B",
    home_goals := some 2, away_goals := some 1, result := some "H",
    halftime_home_goals := none, halftime_away_goals := none, halftime_result := none,
    home_shots := none, away_shots := none, home_shots_on_target := none,
    away_shots_on_target := none, home_fouls := none, away_fouls := none,
    home_yellow_cards := 0, away_yellow_cards := 0, home_red_cards := 0,
    away_red_cards := 0, home_corners := none, away_corners := none, referee := none,
    goal_differential := some 1, home_shot_accuracy := none, away_shot_accuracy := none,
    shot_differential := none, home_total_cards := 0, away_total_cards := 0,
    card_differential := 0, total_goals := some 3, home_win := 1, away_win := 0, draw := 0 }

/-- C6 counterexample: on a one-row integrated table whose season (a
core field) is null, every check of `validate_integration` passes —
so the report contains no check that passes if and only if no core
field is null. -/
theorem c6_core_field_check_cex :
    validate_integration [c6IntRow] [c6MatchRow] =
      { record_count_match := true, no_duplicate_ids := true, no_missing_goals := true,
        no_missing_dates := true, valid_results := true, all_passed := true } ∧
    specCoreFieldsComplete [c6IntRow] = false ∧ c6IntRow.season = none := by decide
